import Mathlib

/-
Formal model of the CloudMonitor check action (src/index.js).

The script reads configuration from environment variables, performs one HTTP
POST to a comparison endpoint, interprets the JSON response, prints a summary,
per-pair detail blocks and CI annotation lines, and exits 0 or 1 depending on
whether the normalized global risk reaches the configured threshold.

The embedding is shallow: JavaScript values appearing in the response are
modelled by the inductive type `Json`; JavaScript coercions (truthiness,
string coercion, property access, `Object.entries`) are modelled by explicit
functions; the HTTP transport and `JSON.parse` are abstract parameters of the
`run` function, so theorems can quantify over every possible response.
-/

/-- JSON-representable JavaScript values.  Numbers are modelled as integers
(ordinary HTTP statuses and the values the script manipulates are integral);
an object is an association list of fields, taken to list the object's own
enumerable string keys in enumeration order, without duplicates. -/
inductive Json where
| null : Json
| bool (b : Bool) : Json
| num (n : Int) : Json
| str (s : String) : Json
| arr (elems : List Json) : Json
| obj (fields : List (String × Json)) : Json

/-- JavaScript truthiness of a value (NaN does not arise in the integer
number model). -/
def jsTruthy : Json → Bool
| Json.null => false
| Json.bool b => b
| Json.num n => n != 0
| Json.str s => s != ""
| Json.arr _ => true
| Json.obj _ => true

/-- Truthiness of a possibly absent value; an absent property (`undefined`)
is falsy. -/
def jsTruthyOpt : Option Json → Bool
| none => false
| some v => jsTruthy v

/-- JavaScript `typeof v === "object"` (true for objects, arrays and null). -/
def isObjectType : Json → Bool
| Json.obj _ => true
| Json.arr _ => true
| Json.null => true
| _ => false

/-- Is the value JSON `null`?  The one parsed body on which the plain (non
optional-chained) property access of line 92 throws a TypeError. -/
def isNull : Json → Bool
| Json.null => true
| _ => false

/-- Property access `v.key` / `v?.key`: a named field of an object, else
`undefined`.  (Index and `length` properties of strings and arrays are not
modelled; the script only reads the named keys risk, issues, pairs, message,
title and severity.) -/
def jsGet (v : Json) (key : String) : Option Json :=
match v with
| Json.obj fields => fields.lookup key
| _ => none

/-- JavaScript `Object.entries`: fields of an object, indexed elements of an
array or string, and the empty list for primitives. -/
def jsEntries : Json → List (String × Json)
| Json.obj fields => fields
| Json.arr elems => elems.enum.map (fun ic => (toString ic.1, ic.2))
| Json.str s => s.data.enum.map (fun ic => (toString ic.1, Json.str (String.singleton ic.2)))
| _ => []

mutual

/-- JavaScript string coercion `String(v)` of a JSON value.  Arrays stringify
as their elements joined with commas (`Array.prototype.toString`), with null
elements contributing the empty string; objects stringify as
"[object Object]". -/
def jsToString : Json → String
| Json.null => "null"
| Json.bool b => if b then "true" else "false"
| Json.num n => toString n
| Json.str s => s
| Json.arr elems => String.intercalate "," (jsArrayToStrings elems)
| Json.obj _ => "[object Object]"

/-- Element-wise string coercion used by `Array.prototype.join`. -/
def jsArrayToStrings : List Json → List String
| [] => []
| Json.null :: rest => "" :: jsArrayToStrings rest
| v :: rest => jsToString v :: jsArrayToStrings rest

end

/-- Lower-case a string character-wise (model of `String.prototype.toLowerCase`;
the script only ever lower-cases ASCII risk labels and issue messages). -/
def jsToLower (s : String) : String :=
String.mk (s.data.map Char.toLower)

/-- Upper-case a string character-wise (model of `String.prototype.toUpperCase`). -/
def jsToUpper (s : String) : String :=
String.mk (s.data.map Char.toUpper)

/-- Substring search on character lists: does the second list occur
contiguously inside the first? -/
def listContains (needle : List Char) : List Char → Bool
| [] => needle.isEmpty
| c :: rest => needle.isPrefixOf (c :: rest) || listContains needle rest

/-- Model of `String.prototype.includes`. -/
def strIncludes (hay needle : String) : Bool :=
listContains needle.data hay.data

/-- Model of `String.prototype.split(",")`: cut at every comma, keeping empty
segments. -/
def splitCommaAux : List Char → List Char → List String
| [], acc => [String.mk acc.reverse]
| c :: rest, acc =>
  if c = ',' then String.mk acc.reverse :: splitCommaAux rest []
  else splitCommaAux rest (c :: acc)

/-- JavaScript `s.split(",")`. -/
def splitComma (s : String) : List String :=
splitCommaAux s.data []

/-- Whitespace stripped by `String.prototype.trim` (ASCII whitespace and
no-break space; the further Unicode space characters trimmed by JavaScript do
not occur in the modelled inputs). -/
def jsIsWhitespace (c : Char) : Bool :=
c = ' ' || c = '\t' || c = '\n' || c = '\r' || c.toNat = 11 || c.toNat = 12 || c.toNat = 0xa0

/-- Model of `String.prototype.trim`. -/
def jsTrim (s : String) : String :=
String.mk (((s.data.dropWhile jsIsWhitespace).reverse.dropWhile jsIsWhitespace).reverse)

/-- Model of `text.slice(0, n)`. -/
def jsSlice0 (s : String) (n : Nat) : String :=
String.mk (s.data.take n)

/-- Escape one character as inside a JSON string literal produced by
`JSON.stringify`. -/
def escapeJsonChar (c : Char) : String :=
if c = '"' then "\\\""
else if c = '\\' then "\\\\"
else if c = '\n' then "\\n"
else if c = '\r' then "\\r"
else if c = '\t' then "\\t"
else if c.toNat = 8 then "\\b"
else if c.toNat = 12 then "\\f"
else if c.toNat < 32 then
  "\\u00" ++ String.mk [Nat.digitChar (c.toNat / 16), Nat.digitChar (c.toNat % 16)]
else String.singleton c

/-- A JSON string literal with quotes, as produced by `JSON.stringify`. -/
def quoteJson (s : String) : String :=
"\"" ++ String.join (s.data.map escapeJsonChar) ++ "\""

mutual

/-- Model of `JSON.stringify` on JSON values. -/
def jsonStringify : Json → String
| Json.null => "null"
| Json.bool b => if b then "true" else "false"
| Json.num n => toString n
| Json.str s => quoteJson s
| Json.arr elems => "[" ++ String.intercalate "," (jsonStringifyList elems) ++ "]"
| Json.obj fields => "\x7b" ++ String.intercalate "," (jsonStringifyFields fields) ++ "\x7d"

/-- `JSON.stringify` of the elements of an array. -/
def jsonStringifyList : List Json → List String
| [] => []
| v :: rest => jsonStringify v :: jsonStringifyList rest

/-- `JSON.stringify` of the fields of an object. -/
def jsonStringifyFields : List (String × Json) → List String
| [] => []
| (k, v) :: rest => (quoteJson k ++ ":" ++ jsonStringify v) :: jsonStringifyFields rest

end

/- ## The functions of src/index.js -/

/-- Line 2: `const severityRank = { low: 1, medium: 2, high: 3 }`, as a
partial lookup (indexing the object with any other key yields `undefined`). -/
def severityRank (s : String) : Option Nat :=
if s = "low" then some 1
else if s = "medium" then some 2
else if s = "high" then some 3
else none

/-- JavaScript `>=` on two possibly-undefined numbers: comparisons involving
`undefined` (NaN after coercion) are false. -/
def jsGE : Option Nat → Option Nat → Bool
| some a, some b => decide (b ≤ a)
| _, _ => false

/-- Lines 4-8: `getInput(name, fallback)` reads `INPUT_<NAME>` (spaces mapped
to underscores, upper-cased) from the environment, with `?? fallback` so that
a present-but-empty variable is returned as is. -/
def getInput (env : List (String × String)) (name : String) (fallback : String) : String :=
match env.lookup ("INPUT_" ++ jsToUpper (String.mk (name.data.map (fun c => if c = ' ' then '_' else c)))) with
| some v => v
| none => fallback

/-- Lines 10-15: `parseCsv` splits on commas, trims every entry and keeps the
truthy (non-empty) ones. -/
def parseCsv (input : String) : List String :=
((splitComma input).map jsTrim).filter (fun s => s != "")

/-- Lines 17-21: `normalizeRisk` coerces its argument with `String(risk || "")`,
lower-cases it, and keeps it only if it is one of the three risk labels,
degrading everything else to "low".  An absent argument (`undefined`) is
modelled as `none`. -/
def normalizeRisk (risk : Option Json) : String :=
let base := match risk with
  | some v => if jsTruthy v then jsToString v else ""
  | none => ""
let r := jsToLower base
if r = "high" ∨ r = "medium" ∨ r = "low" then r else "low"

/-- Lines 23-27: icon for a pair's risk level. -/
def icon (risk : String) : String :=
if risk = "high" then "✖"
else if risk = "medium" then "⚠"
else "✔"

/-- Lines 29-33: CI annotation prefix for a severity. -/
def annotationPrefix (sev : String) : String :=
if sev = "high" then "::error::"
else if sev = "medium" then "::warning::"
else "::notice::"

/-- Lines 35-42: `issueToMessage` returns the issue itself when it is a
string, else `issue.message || issue.title || JSON.stringify(issue)` for
truthy objects (and arrays, whose `typeof` is "object"), else `String(issue)`.
The JavaScript function returns the selected property value unchanged, hence
the result is a `Json` value, not necessarily a string. -/
def issueToMessage (issue : Json) : Json :=
match issue with
| Json.str s => Json.str s
| _ =>
  if jsTruthy issue && isObjectType issue then
    if jsTruthyOpt (jsGet issue "message") then (jsGet issue "message").getD Json.null
    else if jsTruthyOpt (jsGet issue "title") then (jsGet issue "title").getD Json.null
    else Json.str (jsonStringify issue)
  else Json.str (jsToString issue)

/-- The line the catch-all handler (lines 137-140) prints for an uncaught
TypeError (`err?.stack || String(err)`).  The precise text is runtime
specific; no theorem depends on its content, only on the crash itself. -/
def typeErrorLine (description : String) : String :=
"TypeError: " ++ description

/-- Lines 44-53: per-issue severity.  A truthy `severity` property of an
object issue wins and is normalized; otherwise line 49 calls
`issueToMessage(issue).toLowerCase()`, which throws a TypeError — modelled as
`Except.error` — whenever that value is not a string (no JSON value other
than a string has a `toLowerCase` method); on a string it is lower-cased and
matched against the keyword rules, with the pair's risk, normalized, as
fallback. -/
def inferSeverityFromIssue (issue : Json) (fallbackPairRisk : String) : Except String String :=
if jsTruthy issue && isObjectType issue && jsTruthyOpt (jsGet issue "severity") then
  Except.ok (normalizeRisk (jsGet issue "severity"))
else
  match issueToMessage issue with
  | Json.str sm =>
    let msg := jsToLower sm
    Except.ok
      (if strIncludes msg "missing snapshot for production" || strIncludes msg "app_debug" then "high"
       else if strIncludes msg "missing env key" || strIncludes msg "mismatch" then "medium"
       else normalizeRisk (some (Json.str fallbackPairRisk)))
  | _ => Except.error (typeErrorLine "issueToMessage(issue).toLowerCase is not a function")

/- ## Configuration and the run pipeline (main, lines 55-140) -/

/-- The configuration read at the top of `main` (lines 56-61). -/
structure Config where
  apiKey : String
  apiUrl : String
  baseline : String
  environments : List String
  failOn : String
  annotate : Bool
deriving DecidableEq

/-- Lines 56-61 of `main`: read and normalize the six inputs.  `api_url` has
one trailing slash stripped by `.replace(/\/$/, "")`; `fail_on` is normalized;
`annotate` is every value other than "false" case-insensitively. -/
def readConfig (env : List (String × String)) : Config :=
{ apiKey := getInput env "api_key" ""
, apiUrl :=
    match (getInput env "api_url" "").data.reverse with
    | '/' :: rest => String.mk rest.reverse
    | _ => getInput env "api_url" ""
, baseline := getInput env "baseline" "production"
, environments := parseCsv (getInput env "environments" "staging,production")
, failOn := normalizeRisk (some (Json.str (getInput env "fail_on" "high")))
, annotate := jsToLower (getInput env "annotate" "true") != "false" }

/-- The single outbound request of lines 66-77. -/
structure Request where
  url : String
  authorization : String
  contentType : String
  accept : String
  bodyEnvironments : List String
  bodyBaseline : String
deriving DecidableEq

/-- Lines 66-77: the request `main` posts. -/
def buildRequest (cfg : Config) : Request :=
{ url := cfg.apiUrl ++ "/api/compare"
, authorization := "Bearer " ++ cfg.apiKey
, contentType := "application/json"
, accept := "application/json"
, bodyEnvironments := cfg.environments
, bodyBaseline := cfg.baseline }

/-- What the script observes of an HTTP response: its status and its body
read as text (line 79). -/
structure HttpResponse where
  status : Nat
  text : String
deriving DecidableEq

/-- `res.ok`: status in the inclusive success range 200-299. -/
def responseOk (res : HttpResponse) : Bool :=
decide (200 ≤ res.status) && decide (res.status ≤ 299)

/-- Line 82, `text ? JSON.parse(text) : {}`, with `JSON.parse` abstracted as
`parseJson` (returning `none` exactly when parsing throws): an empty body
yields the empty object without consulting the parser. -/
def bodyJson (parseJson : String → Option Json) (text : String) : Option Json :=
if text = "" then some (Json.obj []) else parseJson text

/-- Line 84: the error message for a non-JSON body. -/
def nonJsonMsg (res : HttpResponse) : String :=
"CloudMonitor compare returned non-JSON (status " ++ toString res.status ++ "): " ++ jsSlice0 res.text 200

/-- Line 88: the optional `: <message>` suffix of the non-success error. -/
def failedMsgSuffix (json : Json) : String :=
match jsGet json "message" with
| some v => if jsTruthy v then ": " ++ jsToString v else ""
| none => ""

/-- The per-risk-level pair counters of line 97. -/
structure Counts where
  high : Nat
  medium : Nat
  low : Nat
deriving DecidableEq

/-- Line 102, `counts[r] += 1`.  The final branch is unreachable because `r`
is always a `normalizeRisk` result (in JavaScript an unranked key would
poison the counter with NaN). -/
def bumpCounts (c : Counts) (r : String) : Counts :=
if r = "high" then { c with high := c.high + 1 }
else if r = "medium" then { c with medium := c.medium + 1 }
else if r = "low" then { c with low := c.low + 1 }
else c

/-- Total number of pairs counted. -/
def countsTotal (c : Counts) : Nat :=
c.high + c.medium + c.low

/-- `Array.isArray` on a possibly absent value. -/
def isArrayOpt : Option Json → Bool
| some (Json.arr _) => true
| _ => false

/-- Line 112, `Array.isArray(data?.issues) ? data.issues : []`. -/
def issuesArr (data : Json) : List Json :=
match jsGet data "issues" with
| some (Json.arr xs) => xs
| _ => []

/-- Line 103, `Array.isArray(data?.issues) ? data.issues.length : 0`. -/
def issueCount (data : Json) : Nat :=
if isArrayOpt (jsGet data "issues") then (issuesArr data).length else 0

/-- Line 106: the one-line run summary. -/
def summaryLine (baseline globalRisk : String) (pairCount totalIssues : Nat) : String :=
"CloudMonitor baseline=" ++ baseline ++ " risk=" ++ jsToUpper globalRisk ++ " pairs=" ++ toString pairCount ++ " issues=" ++ toString totalIssues

/-- Line 107: the pair-count breakdown line. -/
def pairsLine (c : Counts) : String :=
"Pairs: " ++ toString c.high ++ " HIGH / " ++ toString c.medium ++ " MED / " ++ toString c.low ++ " LOW"

/-- Line 130: the line printed to stderr when the threshold is met. -/
def failLine (globalRisk failOn : String) : String :=
"CloudMonitor: failing because risk=" ++ jsToUpper globalRisk ++ " >= fail_on=" ++ jsToUpper failOn

/-- Run a sequence of printing steps left to right, concatenating their
output and stopping at the first thrown error: the model of consecutive
`console.log` iterations with an exception aborting the loop. -/
def runSeq {α : Type} (f : α → List String × Option String) : List α → List String × Option String
| [] => ([], none)
| x :: rest =>
  match f x with
  | (ls, some e) => (ls, some e)
  | (ls, none) =>
    match runSeq f rest with
    | (ls2, e2) => (ls ++ ls2, e2)

/-- Lines 116-125, one issue: the message line (the template at line 118
coerces a non-string message) always prints; with annotation enabled the
severity inference of line 121 may throw, in which case the annotation line
is never printed and the error aborts the report. -/
def issueLines (annotate : Bool) (pairName : String) (r : String) (issue : Json) :
    List String × Option String :=
let msg := jsToString (issueToMessage issue)
if annotate then
  match inferSeverityFromIssue issue r with
  | Except.ok sev => (["  - " ++ msg, annotationPrefix sev ++ pairName ++ ": " ++ msg], none)
  | Except.error e => (["  - " ++ msg], some e)
else (["  - " ++ msg], none)

/-- Lines 110-126, one pair: nothing when it has no issues, else the header
line with the icon and upper-cased risk (printed with a leading blank line)
followed by its issue lines, stopping at a thrown TypeError. -/
def pairLines (annotate : Bool) (pairName : String) (data : Json) :
    List String × Option String :=
let r := normalizeRisk (jsGet data "risk")
let issues := issuesArr data
if issues.isEmpty then ([], none)
else
  match runSeq (issueLines annotate pairName r) issues with
  | (ls, e) => (("\n" ++ icon r ++ " " ++ pairName ++ " (" ++ jsToUpper r ++ ")") :: ls, e)

/-- The lines the detail loop prints for one pair (all of them when nothing
throws; up to the crash otherwise, whose error `pairLines` carries). -/
def pairDetail (annotate : Bool) (pairName : String) (data : Json) : List String :=
(pairLines annotate pairName data).1

/-- Line 93, `json.pairs || {}` (reached only on non-null bodies). -/
def pairsValue (json : Json) : Json :=
match jsGet json "pairs" with
| some v => if jsTruthy v then v else Json.obj []
| none => Json.obj []

/-- The whole detail phase, lines 110-126: the pairs processed in order,
stopping at the first thrown TypeError. -/
def reportDetail (cfg : Config) (json : Json) : List String × Option String :=
runSeq (fun e => pairLines cfg.annotate e.1 e.2) (jsEntries (pairsValue json))

/-- The observable outcome of one run: the lines logged to stdout, the lines
logged to stderr, and the process exit code. -/
structure RunResult where
  stdout : List String
  stderr : List String
  exitCode : Nat
deriving DecidableEq

/-- Lines 92-134: everything `main` does once it holds a parsed body and a
successful status.  Line 92 reads `json.risk` with a plain (non-optional)
access: on the parsed body `null` this throws a TypeError before anything is
printed, and the catch-all exits 1.  Otherwise the global risk is normalized,
`json.pairs || {}` is taken, pairs are counted per risk level with the total
issue count, the summary and detail blocks print — a TypeError thrown by
severity inference aborting the loop with the lines printed so far, again
exit 1 — and finally the run exits 1 with an error line when the global risk
rank reaches the `fail_on` rank, else exits 0. -/
def report (cfg : Config) (json : Json) : RunResult :=
if isNull json then
  { stdout := []
  , stderr := [typeErrorLine "Cannot read properties of null (reading risk)"]
  , exitCode := 1 }
else
  let globalRisk := normalizeRisk (jsGet json "risk")
  let pairEntries := jsEntries (pairsValue json)
  let counts := pairEntries.foldl (fun c e => bumpCounts c (normalizeRisk (jsGet e.2 "risk"))) ⟨0, 0, 0⟩
  let totalIssues := pairEntries.foldl (fun n e => n + issueCount e.2) 0
  let detail := reportDetail cfg json
  let stdout :=
    summaryLine cfg.baseline globalRisk pairEntries.length totalIssues
    :: pairsLine counts
    :: detail.1
  match detail.2 with
  | some e => { stdout := stdout, stderr := [e], exitCode := 1 }
  | none =>
    if jsGE (severityRank globalRisk) (severityRank cfg.failOn) then
      { stdout := stdout, stderr := [failLine globalRisk cfg.failOn], exitCode := 1 }
    else
      { stdout := stdout, stderr := [], exitCode := 0 }

/-- Lines 55-135: `main` as a function of the environment, an abstract
transport and an abstract `JSON.parse`; a thrown error is an `Except.error`
carrying its message. -/
def mainE (env : List (String × String)) (transport : Request → HttpResponse)
    (parseJson : String → Option Json) : Except String RunResult :=
let cfg := readConfig env
if cfg.apiKey = "" then Except.error "Missing required input: api_key"
else if cfg.apiUrl = "" then Except.error "Missing required input: api_url"
else
  let res := transport (buildRequest cfg)
  match bodyJson parseJson res.text with
  | none => Except.error (nonJsonMsg res)
  | some json =>
    if responseOk res then Except.ok (report cfg json)
    else Except.error ("CloudMonitor compare failed (status " ++ toString res.status ++ ")" ++ failedMsgSuffix json)

/-- Lines 137-140: the catch-all around `main` prints the error to stderr and
exits 1; otherwise `main` itself already fixed the output and exit code. -/
def run (env : List (String × String)) (transport : Request → HttpResponse)
    (parseJson : String → Option Json) : RunResult :=
match mainE env transport parseJson with
| Except.ok r => r
| Except.error msg => { stdout := [], stderr := [msg], exitCode := 1 }

/- ## Spec-side definitions, for comparison with the functions above -/

/-- Spec-side: the normalization mapping exactly as claimed — the three risk
strings (case-insensitively) to their lowercase forms, every other value,
including the empty string and an absent value, to "low". -/
def specNormalizeRisk : Option Json → String
| some (Json.str s) =>
  if jsToLower s = "high" ∨ jsToLower s = "medium" ∨ jsToLower s = "low" then jsToLower s
  else "low"
| _ => "low"

/-- Spec-side: keyword inference on a rendered message string, in the claimed
priority order, with the pair risk (normalized) as final fallback. -/
def specKeywordSeverity (renderedMsg : String) (pairRisk : String) : String :=
let msg := jsToLower renderedMsg
if strIncludes msg "missing snapshot for production" || strIncludes msg "app_debug" then "high"
else if strIncludes msg "missing env key" || strIncludes msg "mismatch" then "medium"
else normalizeRisk (some (Json.str pairRisk))

/-- Spec-side: the per-issue severity exactly as the original claim states it
— the issue's own severity field if present and a valid risk level, otherwise
keyword inference on the rendered message, otherwise the pair risk.  (The
claim's reading always produces a severity; the message is rendered to a
string for matching.) -/
def specIssueSeverity (issue : Json) (pairRisk : String) : String :=
match jsGet issue "severity" with
| some (Json.str s) =>
  if jsToLower s = "high" ∨ jsToLower s = "medium" ∨ jsToLower s = "low" then jsToLower s
  else specKeywordSeverity (jsToString (issueToMessage issue)) pairRisk
| _ => specKeywordSeverity (jsToString (issueToMessage issue)) pairRisk

/- ## Helper lemmas -/

/-- The output of `normalizeRisk` is always one of the three risk labels. -/
theorem normalizeRisk_cases (v : Option Json) :
    normalizeRisk v = "low" ∨ normalizeRisk v = "medium" ∨ normalizeRisk v = "high" := by
  simp only [normalizeRisk]
  split
  case isTrue h => rcases h with h | h | h <;> simp [h]
  case isFalse h => simp

/-- The rank of a normalized risk label is always defined. -/
theorem severityRank_normalizeRisk (v : Option Json) :
    (severityRank (normalizeRisk v)).isSome = true := by
  rcases normalizeRisk_cases v with h | h | h <;> simp [h, severityRank]

/-- The configured threshold is stored already normalized. -/
theorem readConfig_failOn (env : List (String × String)) :
    (readConfig env).failOn = normalizeRisk (some (Json.str (getInput env "fail_on" "high"))) := rfl

/-- When the configuration is complete, the body parses and the status is in
the success range, `main` returns the report of the parsed body. -/
theorem mainE_ok (env : List (String × String)) (t : Request → HttpResponse)
    (p : String → Option Json) (j : Json)
    (hkey : ¬ (readConfig env).apiKey = "")
    (hurl : ¬ (readConfig env).apiUrl = "")
    (hbody : bodyJson p (t (buildRequest (readConfig env))).text = some j)
    (hok : responseOk (t (buildRequest (readConfig env))) = true) :
    mainE env t p = Except.ok (report (readConfig env) j) := by
  simp only [mainE]
  rw [if_neg hkey, if_neg hurl, hbody, hok]
  simp

/-- `run`, under the same conditions, is the report of the parsed body. -/
theorem run_eq_report (env : List (String × String)) (t : Request → HttpResponse)
    (p : String → Option Json) (j : Json)
    (hkey : ¬ (readConfig env).apiKey = "")
    (hurl : ¬ (readConfig env).apiUrl = "")
    (hbody : bodyJson p (t (buildRequest (readConfig env))).text = some j)
    (hok : responseOk (t (buildRequest (readConfig env))) = true) :
    run env t p = report (readConfig env) j := by
  simp only [run, mainE_ok env t p j hkey hurl hbody hok]

/-- On non-null bodies whose detail phase throws no TypeError, the exit code
and error line of a report are governed exactly by the rank comparison of the
normalized global risk against the threshold. -/
theorem report_exitCode_iff (cfg : Config) (json : Json)
    (hnull : isNull json = false) (hcrash : (reportDetail cfg json).2 = none) :
    ((report cfg json).exitCode = 1 ↔
      jsGE (severityRank (normalizeRisk (jsGet json "risk"))) (severityRank cfg.failOn) = true) ∧
    ((report cfg json).exitCode = 0 ↔
      jsGE (severityRank (normalizeRisk (jsGet json "risk"))) (severityRank cfg.failOn) = false) ∧
    (jsGE (severityRank (normalizeRisk (jsGet json "risk"))) (severityRank cfg.failOn) = true →
      (report cfg json).stderr = [failLine (normalizeRisk (jsGet json "risk")) cfg.failOn]) := by
  by_cases h : jsGE (severityRank (normalizeRisk (jsGet json "risk"))) (severityRank cfg.failOn) = true
  · simp [report, hnull, hcrash, h]
  · simp at h
    simp [report, hnull, hcrash, h]

/-- Whenever the rank comparison holds, a report exits 1 — on the normal
path, and also on both crash paths (null body, annotation TypeError). -/
theorem report_exit_one_of_ge (cfg : Config) (json : Json)
    (hge : jsGE (severityRank (normalizeRisk (jsGet json "risk"))) (severityRank cfg.failOn) = true) :
    (report cfg json).exitCode = 1 := by
  by_cases hnull : isNull json = true
  · simp [report, hnull]
  · simp at hnull
    rcases hd : (reportDetail cfg json).2 with _ | e
    · simp [report, hnull, hd, hge]
    · simp [report, hnull, hd]

/-- A report that exits 0 took the normal path with a failing rank
comparison. -/
theorem report_exit_zero_ge (cfg : Config) (json : Json)
    (h0 : (report cfg json).exitCode = 0) :
    jsGE (severityRank (normalizeRisk (jsGet json "risk"))) (severityRank cfg.failOn) = false := by
  by_contra hc
  simp at hc
  rw [report_exit_one_of_ge cfg json hc] at h0
  exact absurd h0 (by decide)

/-- A list is a prefix of itself followed by anything. -/
theorem isPrefixOf_append_self (l r : List Char) : l.isPrefixOf (l ++ r) = true := by
  induction l with
  | nil => simp [List.isPrefixOf]
  | cons c t ih => simp [List.isPrefixOf, ih]

/-- Containment is preserved by extending the haystack on the left. -/
theorem listContains_append_left (a h n : List Char) (hc : listContains n h = true) :
    listContains n (a ++ h) = true := by
  induction a with
  | nil => simpa
  | cons c t ih => simp [listContains, ih]

/-- A list is contained in itself followed by anything. -/
theorem listContains_self_append (n r : List Char) : listContains n (n ++ r) = true := by
  cases n with
  | nil => cases r <;> simp [listContains, List.isEmpty, List.isPrefixOf]
  | cons c t => simp [listContains, isPrefixOf_append_self]

/-- A string contains any middle factor of itself. -/
theorem strIncludes_middle (a n b : String) : strIncludes (a ++ n ++ b) n = true := by
  simp only [strIncludes, String.data_append, List.append_assoc]
  exact listContains_append_left a.data _ _ (listContains_self_append n.data b.data)

/-- Reporting on the empty object: the summary shows risk LOW with zero pairs
and zero issues, and the exit code is 1 exactly for threshold "low". -/
theorem report_empty (cfg : Config) :
    (report cfg (Json.obj [])).stdout = [summaryLine cfg.baseline "low" 0 0, pairsLine ⟨0, 0, 0⟩] ∧
    (report cfg (Json.obj [])).exitCode = (if cfg.failOn = "low" then 1 else 0) := by
  have hrep : report cfg (Json.obj []) =
      (if jsGE (some 1) (severityRank cfg.failOn) then
        { stdout := [summaryLine cfg.baseline "low" 0 0, pairsLine ⟨0, 0, 0⟩]
        , stderr := [failLine "low" cfg.failOn], exitCode := 1 }
       else
        { stdout := [summaryLine cfg.baseline "low" 0 0, pairsLine ⟨0, 0, 0⟩]
        , stderr := [], exitCode := 0 }) := rfl
  rw [hrep]
  constructor
  · by_cases h : jsGE (some 1) (severityRank cfg.failOn) = true <;> simp [h]
  · by_cases h1 : cfg.failOn = "low"
    · simp [severityRank, h1, jsGE]
    · by_cases h2 : cfg.failOn = "medium"
      · simp [severityRank, h1, h2, jsGE]
      · by_cases h3 : cfg.failOn = "high"
        · simp [severityRank, h1, h2, h3, jsGE]
        · simp [severityRank, h1, h2, h3, jsGE]

/- ## Claim theorems -/

/-- Counterexample to C1 as stated: the response body "null" parses (to JSON
null) and arrives with status 200, and the normalized risk "low" ranks below
the default threshold "high" — so the claim demands exit code 0 — yet the
program throws a TypeError at the plain `json.risk` access of line 92 and
exits 1. -/
theorem c1_counterexample :
    run [("INPUT_API_KEY", "secret"), ("INPUT_API_URL", "https://cm.example")]
      (fun _ => { status := 200, text := "null" })
      (fun s => if s = "null" then some Json.null else none) =
      { stdout := []
      , stderr := [typeErrorLine "Cannot read properties of null (reading risk)"]
      , exitCode := 1 } ∧
    bodyJson (fun s => if s = "null" then some Json.null else none) "null" = some Json.null ∧
    responseOk { status := 200, text := "null" } = true ∧
    jsGE (severityRank (normalizeRisk (jsGet Json.null "risk")))
      (severityRank (readConfig [("INPUT_API_KEY", "secret"), ("INPUT_API_URL", "https://cm.example")]).failOn)
      = false :=
  ⟨rfl, rfl, rfl, rfl⟩

/-- Claim C1 (amended): for every response whose JSON parse and HTTP status
checks succeed, exit code 1 follows whenever the rank of the normalized
global risk reaches the rank of the configured threshold, and exit code 0
entails that it does not; when additionally the parsed body is not JSON null
and the detail phase throws no TypeError (so the run cannot crash), the
process exits 1 (after printing an error line) exactly when the rank
comparison holds and 0 otherwise.  Both ranks are always defined.  A null
body, or an annotated issue whose truthy non-string message makes
`.toLowerCase()` throw, instead crashes the run with exit code 1 even when
the risk is below the threshold. -/
theorem c1_exit_code_amended (env : List (String × String))
    (t : Request → HttpResponse) (p : String → Option Json) (j : Json)
    (hkey : ¬ (readConfig env).apiKey = "")
    (hurl : ¬ (readConfig env).apiUrl = "")
    (hbody : bodyJson p (t (buildRequest (readConfig env))).text = some j)
    (hok : responseOk (t (buildRequest (readConfig env))) = true) :
    (severityRank (normalizeRisk (jsGet j "risk"))).isSome = true ∧
    (severityRank (readConfig env).failOn).isSome = true ∧
    (jsGE (severityRank (normalizeRisk (jsGet j "risk"))) (severityRank (readConfig env).failOn) = true →
      (run env t p).exitCode = 1) ∧
    ((run env t p).exitCode = 0 →
      jsGE (severityRank (normalizeRisk (jsGet j "risk"))) (severityRank (readConfig env).failOn) = false) ∧
    (isNull j = false → (reportDetail (readConfig env) j).2 = none →
      ((run env t p).exitCode = 1 ↔
        jsGE (severityRank (normalizeRisk (jsGet j "risk"))) (severityRank (readConfig env).failOn) = true) ∧
      ((run env t p).exitCode = 0 ↔
        jsGE (severityRank (normalizeRisk (jsGet j "risk"))) (severityRank (readConfig env).failOn) = false) ∧
      (jsGE (severityRank (normalizeRisk (jsGet j "risk"))) (severityRank (readConfig env).failOn) = true →
        (run env t p).stderr = [failLine (normalizeRisk (jsGet j "risk")) (readConfig env).failOn])) := by
  rw [run_eq_report env t p j hkey hurl hbody hok]
  refine ⟨severityRank_normalizeRisk _, ?_, report_exit_one_of_ge (readConfig env) j,
    report_exit_zero_ge (readConfig env) j, report_exitCode_iff (readConfig env) j⟩
  rw [readConfig_failOn]
  exact severityRank_normalizeRisk _

/-- Witness for C1 (amended): a concrete crash-free run with global risk
"high" and the default threshold "high" exits 1. -/
theorem c1_witness :
    (run [("INPUT_API_KEY", "secret"), ("INPUT_API_URL", "https://cm.example")]
      (fun _ => { status := 200, text := "body" })
      (fun s => if s = "body" then some (Json.obj [("risk", Json.str "high")]) else none)).exitCode = 1 :=
  ((c1_exit_code_amended
    [("INPUT_API_KEY", "secret"), ("INPUT_API_URL", "https://cm.example")]
    (fun _ => { status := 200, text := "body" })
    (fun s => if s = "body" then some (Json.obj [("risk", Json.str "high")]) else none)
    (Json.obj [("risk", Json.str "high")])
    (by decide) (by decide) rfl rfl).2.2.2.2 rfl rfl).1.mpr rfl

/-- Counterexample to C2 as stated: the non-string value `["high"]` does not
normalize to "low" — JavaScript string coercion turns the one-element array
into the string "high", which the function then accepts — although the
claimed mapping sends every non-string value to "low". -/
theorem c2_counterexample :
    normalizeRisk (some (Json.arr [Json.str "high"])) = "high" ∧
    specNormalizeRisk (some (Json.arr [Json.str "high"])) = "low" :=
  ⟨rfl, rfl⟩

/-- Claim C2 (amended): on string and absent inputs, normalization behaves
exactly as claimed — the three risk strings case-insensitively to their
lowercase forms, everything else to "low" — while every other value is first
coerced to a string JavaScript-style (so some non-string values, such as the
array `["high"]`, normalize to a risk label other than "low"). -/
theorem c2_normalizeRisk_amended :
    normalizeRisk none = "low" ∧
    (∀ s : String, normalizeRisk (some (Json.str s)) = specNormalizeRisk (some (Json.str s))) ∧
    (∀ v : Json, normalizeRisk (some v) =
      (if jsTruthy v then specNormalizeRisk (some (Json.str (jsToString v))) else "low")) := by
  refine ⟨rfl, ?_, ?_⟩
  · intro s
    by_cases h : s = ""
    · subst h
      decide
    · have ht : jsTruthy (Json.str s) = true := by simp [jsTruthy, h]
      simp [normalizeRisk, specNormalizeRisk, ht, jsToString]
  · intro v
    by_cases h : jsTruthy v = true
    · simp [normalizeRisk, specNormalizeRisk, h]
    · simp at h
      simp [normalizeRisk, specNormalizeRisk, h]
      decide

/-- Counterexample to C3 as stated: an issue whose severity field holds the
invalid value "critical" next to a high-keyword message.  The claim demands
keyword inference (severity not a valid risk level), yielding "high" and
`::error::`; the code uses the truthy severity field anyway, normalizes it to
"low", and annotates `::notice::`. -/
theorem c3_counterexample :
    inferSeverityFromIssue
      (Json.obj [("severity", Json.str "critical"), ("message", Json.str "APP_DEBUG left enabled")]) "low"
      = Except.ok "low" ∧
    specIssueSeverity
      (Json.obj [("severity", Json.str "critical"), ("message", Json.str "APP_DEBUG left enabled")]) "low"
      = "high" ∧
    annotationPrefix "low" = "::notice::" ∧
    annotationPrefix "high" = "::error::" :=
  ⟨rfl, rfl, rfl, rfl⟩

/-- Claim C3 (amended): the severity used for an issue's annotation — when
one is emitted — is the normalization of the issue's own severity field
whenever that field is present and truthy, even when it is not a valid risk
level, in which case it degrades to "low" instead of falling through to
inference; otherwise, when the rendered message is a string,
case-insensitive keyword inference on it in the claimed priority order, with
the enclosing pair's normalized risk as fallback; otherwise — the severity
field absent or falsy and the rendered message a non-string — the severity
inference throws a TypeError and no annotation is emitted.  In particular an
issue with explicit severity "low" is annotated `::notice::` even when its
message contains a high-severity keyword. -/
theorem c3_severity_amended :
    (∀ (issue : Json) (fb : String),
      inferSeverityFromIssue issue fb =
        (if jsTruthy issue && isObjectType issue && jsTruthyOpt (jsGet issue "severity")
         then Except.ok (normalizeRisk (jsGet issue "severity"))
         else
           match issueToMessage issue with
           | Json.str sm => Except.ok (specKeywordSeverity sm fb)
           | _ => Except.error (typeErrorLine "issueToMessage(issue).toLowerCase is not a function"))) ∧
    (∀ (fields : List (String × Json)) (fb : String),
      (jsGet (Json.obj fields) "severity" = some (Json.str "low")) →
        inferSeverityFromIssue (Json.obj fields) fb = Except.ok "low" ∧
        annotationPrefix "low" = "::notice::") := by
  constructor
  · intro issue fb
    rfl
  · intro fields fb h
    refine ⟨?_, rfl⟩
    unfold inferSeverityFromIssue
    rw [h]
    rfl

/-- Witness for C3 (amended): an issue with explicit severity "low" and a
high-keyword message keeps severity "low" and is annotated `::notice::`. -/
theorem c3_witness :
    inferSeverityFromIssue
        (Json.obj [("severity", Json.str "low"), ("message", Json.str "APP_DEBUG enabled")]) "high" =
      (if jsTruthy (Json.obj [("severity", Json.str "low"), ("message", Json.str "APP_DEBUG enabled")]) &&
          isObjectType (Json.obj [("severity", Json.str "low"), ("message", Json.str "APP_DEBUG enabled")]) &&
          jsTruthyOpt (jsGet (Json.obj [("severity", Json.str "low"), ("message", Json.str "APP_DEBUG enabled")]) "severity")
       then Except.ok (normalizeRisk (jsGet (Json.obj [("severity", Json.str "low"), ("message", Json.str "APP_DEBUG enabled")]) "severity"))
       else
         match issueToMessage (Json.obj [("severity", Json.str "low"), ("message", Json.str "APP_DEBUG enabled")]) with
         | Json.str sm => Except.ok (specKeywordSeverity sm "high")
         | _ => Except.error (typeErrorLine "issueToMessage(issue).toLowerCase is not a function")) ∧
    (inferSeverityFromIssue
        (Json.obj [("severity", Json.str "low"), ("message", Json.str "APP_DEBUG enabled")]) "high" = Except.ok "low" ∧
      annotationPrefix "low" = "::notice::") :=
  ⟨c3_severity_amended.1 _ _,
   c3_severity_amended.2 [("severity", Json.str "low"), ("message", Json.str "APP_DEBUG enabled")] "high" rfl⟩

/-- Claim C4: for every response whose nonempty body fails to parse as JSON
(whatever the status, for example 500), the run fails before the status check
— the result is the non-JSON error alone, with exit code 1 — and the error
message carries the HTTP status and exactly the first 200 characters of the
raw body (hence at most 200 of them). -/
theorem c4_non_json_failure (env : List (String × String))
    (t : Request → HttpResponse) (p : String → Option Json)
    (hkey : ¬ (readConfig env).apiKey = "")
    (hurl : ¬ (readConfig env).apiUrl = "")
    (hne : ¬ (t (buildRequest (readConfig env))).text = "")
    (hbad : p (t (buildRequest (readConfig env))).text = none) :
    run env t p =
      { stdout := []
      , stderr := [nonJsonMsg (t (buildRequest (readConfig env)))]
      , exitCode := 1 } ∧
    nonJsonMsg (t (buildRequest (readConfig env))) =
      "CloudMonitor compare returned non-JSON (status "
        ++ toString (t (buildRequest (readConfig env))).status ++ "): "
        ++ jsSlice0 (t (buildRequest (readConfig env))).text 200 ∧
    strIncludes (nonJsonMsg (t (buildRequest (readConfig env))))
      ("status " ++ toString (t (buildRequest (readConfig env))).status) = true ∧
    (jsSlice0 (t (buildRequest (readConfig env))).text 200).length ≤ 200 := by
  refine ⟨?_, rfl, ?_, ?_⟩
  · have hb : bodyJson p (t (buildRequest (readConfig env))).text = none := by
      simp [bodyJson, hne, hbad]
    have hm : mainE env t p = Except.error (nonJsonMsg (t (buildRequest (readConfig env)))) := by
      simp only [mainE]
      rw [if_neg hkey, if_neg hurl, hb]
    simp only [run, hm]
  · have hshape : nonJsonMsg (t (buildRequest (readConfig env))) =
        "CloudMonitor compare returned non-JSON ("
          ++ ("status " ++ toString (t (buildRequest (readConfig env))).status)
          ++ ("): " ++ jsSlice0 (t (buildRequest (readConfig env))).text 200) := by
      simp only [nonJsonMsg, String.append_assoc]
      rfl
    rw [hshape]
    exact strIncludes_middle _ _ _
  · rw [jsSlice0, String.length_mk, List.length_take]
    exact Nat.min_le_left _ _

/-- Witness for C4: a concrete 500 response with a non-JSON body. -/
theorem c4_witness :
    run [("INPUT_API_KEY", "secret"), ("INPUT_API_URL", "https://cm.example")]
        (fun _ => { status := 500, text := "oops not json" }) (fun _ => none) =
      { stdout := []
      , stderr := [nonJsonMsg ((fun (_ : Request) => ({ status := 500, text := "oops not json" } : HttpResponse))
          (buildRequest (readConfig [("INPUT_API_KEY", "secret"), ("INPUT_API_URL", "https://cm.example")])))]
      , exitCode := 1 } ∧
    strIncludes (nonJsonMsg { status := 500, text := "oops not json" }) ("status " ++ toString (500 : Nat)) = true :=
  ⟨(c4_non_json_failure [("INPUT_API_KEY", "secret"), ("INPUT_API_URL", "https://cm.example")]
      (fun _ => { status := 500, text := "oops not json" }) (fun _ => none)
      (by decide) (by decide) (by decide) rfl).1,
   (c4_non_json_failure [("INPUT_API_KEY", "secret"), ("INPUT_API_URL", "https://cm.example")]
      (fun _ => { status := 500, text := "oops not json" }) (fun _ => none)
      (by decide) (by decide) (by decide) rfl).2.2.1⟩

/-- Claim C5: on the specific successful response with risk "high" and pairs
"a" (low, no issues) and "b" (high, one "missing snapshot" issue), with
fail_on = high, the summary reports risk=HIGH pairs=2 issues=1, pair "a" gets
no detail block, pair "b" gets the ✖ header, and the exit code is 1. -/
theorem c5_concrete_report :
    run [("INPUT_API_KEY", "secret"), ("INPUT_API_URL", "https://cm.example"), ("INPUT_FAIL_ON", "high")]
      (fun _ => { status := 200, text := "body" })
      (fun s => if s = "body" then
          some (Json.obj [("risk", Json.str "high"),
            ("pairs", Json.obj
              [("a", Json.obj [("risk", Json.str "low"), ("issues", Json.arr [])]),
               ("b", Json.obj [("risk", Json.str "high"),
                 ("issues", Json.arr [Json.str "missing snapshot for production app"])])])])
        else none) =
    { stdout :=
        ["CloudMonitor baseline=production risk=HIGH pairs=2 issues=1",
         "Pairs: 1 HIGH / 0 MED / 1 LOW",
         "\n✖ b (HIGH)",
         "  - missing snapshot for production app",
         "::error::b: missing snapshot for production app"]
    , stderr := ["CloudMonitor: failing because risk=HIGH >= fail_on=HIGH"]
    , exitCode := 1 } := rfl

/-- Claim C6: whenever api_key or api_url resolves to the empty string, the
run fails with the corresponding configuration error and exit code 1, and
its outcome is independent of the transport and of the parser — no network
call is ever consulted on that path. -/
theorem c6_missing_config (env : List (String × String))
    (t1 t2 : Request → HttpResponse) (p1 p2 : String → Option Json)
    (h : (readConfig env).apiKey = "" ∨ (readConfig env).apiUrl = "") :
    run env t1 p1 = run env t2 p2 ∧
    (run env t1 p1).exitCode = 1 ∧ (run env t1 p1).stdout = [] ∧
    (run env t1 p1).stderr =
      [if (readConfig env).apiKey = "" then "Missing required input: api_key"
       else "Missing required input: api_url"] := by
  by_cases hk : (readConfig env).apiKey = ""
  · have hm : ∀ (t : Request → HttpResponse) (p : String → Option Json),
        mainE env t p = Except.error "Missing required input: api_key" := by
      intro t p
      simp [mainE, hk]
    simp [run, hm, hk]
  · have hu : (readConfig env).apiUrl = "" := by tauto
    have hm : ∀ (t : Request → HttpResponse) (p : String → Option Json),
        mainE env t p = Except.error "Missing required input: api_url" := by
      intro t p
      simp [mainE, hk, hu]
    simp [run, hm, hk]

/-- Witness for C6: the empty environment, under two different transports and
parsers. -/
theorem c6_witness :
    run [] (fun _ => { status := 200, text := "a" }) (fun _ => some Json.null) =
      run [] (fun _ => { status := 500, text := "b" }) (fun _ => none) ∧
    (run [] (fun _ => { status := 200, text := "a" }) (fun _ => some Json.null)).exitCode = 1 ∧
    (run [] (fun _ => { status := 200, text := "a" }) (fun _ => some Json.null)).stdout = [] ∧
    (run [] (fun _ => { status := 200, text := "a" }) (fun _ => some Json.null)).stderr =
      [if (readConfig []).apiKey = "" then "Missing required input: api_key"
       else "Missing required input: api_url"] :=
  c6_missing_config [] _ _ _ _ (Or.inl rfl)

/-- Claim C7: the environments parser splits on commas, trims every entry and
drops empty entries; in particular "staging, production,,qa" parses to
["staging", "production", "qa"], and in general every parsed entry is a
non-empty trimmed comma-separated piece of the input. -/
theorem c7_parse_environments :
    parseCsv "staging, production,,qa" = ["staging", "production", "qa"] ∧
    ∀ (s x : String), x ∈ parseCsv s →
      ¬ x = "" ∧ ∃ piece, piece ∈ splitComma s ∧ x = jsTrim piece := by
  constructor
  · rfl
  · intro s x hx
    simp only [parseCsv, List.mem_filter, List.mem_map] at hx
    obtain ⟨⟨piece, hp, hpx⟩, hne⟩ := hx
    refine ⟨?_, piece, hp, hpx.symm⟩
    intro hempty
    subst hempty
    simp at hne

/-- Witness for C7: "staging" is an entry parsed from the claimed input. -/
theorem c7_witness : ¬ ("staging" : String) = "" :=
  (c7_parse_environments.2 "staging, production,,qa" "staging" (by decide)).1

/-- Claim C8: every risk value the exit-code decision compares comes out of
the normalization function, whose range is exactly the three ranked labels,
so both rank lookups are always defined and, on defined ranks, the JavaScript
comparison is the total-order comparison. -/
theorem c8_rank_total :
    (∀ v : Option Json,
      normalizeRisk v = "low" ∨ normalizeRisk v = "medium" ∨ normalizeRisk v = "high") ∧
    (∀ v : Option Json, (severityRank (normalizeRisk v)).isSome = true) ∧
    (∀ env : List (String × String), (severityRank (readConfig env).failOn).isSome = true) ∧
    (∀ a b : Nat, jsGE (some a) (some b) = decide (b ≤ a)) := by
  refine ⟨normalizeRisk_cases, severityRank_normalizeRisk, ?_, fun a b => rfl⟩
  intro env
  rw [readConfig_failOn]
  exact severityRank_normalizeRisk _

/-- Claim C9: a response with a completely empty body is treated as the empty
object without consulting the JSON parser at all; with a successful status
the run proceeds with global risk "low", zero pairs and zero issues, and the
exit code is decided solely by the threshold comparison (1 exactly when the
threshold is "low"). -/
theorem c9_empty_body (env : List (String × String)) (t : Request → HttpResponse)
    (p : String → Option Json)
    (hkey : ¬ (readConfig env).apiKey = "")
    (hurl : ¬ (readConfig env).apiUrl = "")
    (htext : (t (buildRequest (readConfig env))).text = "")
    (hok : responseOk (t (buildRequest (readConfig env))) = true) :
    (∀ q : String → Option Json, run env t q = run env t p) ∧
    run env t p = report (readConfig env) (Json.obj []) ∧
    (run env t p).stdout = [summaryLine (readConfig env).baseline "low" 0 0, pairsLine ⟨0, 0, 0⟩] ∧
    (run env t p).exitCode = (if (readConfig env).failOn = "low" then 1 else 0) := by
  have hbody : ∀ q : String → Option Json,
      bodyJson q (t (buildRequest (readConfig env))).text = some (Json.obj []) := by
    intro q
    rw [htext]
    rfl
  have hrun : ∀ q, run env t q = report (readConfig env) (Json.obj []) :=
    fun q => run_eq_report env t q (Json.obj []) hkey hurl (hbody q) hok
  refine ⟨fun q => by rw [hrun q, hrun p], hrun p, ?_, ?_⟩
  · rw [hrun p]
    exact (report_empty (readConfig env)).1
  · rw [hrun p]
    exact (report_empty (readConfig env)).2

/-- Witness for C9: a concrete 204 response with an empty body, under two
different parsers. -/
theorem c9_witness :
    run [("INPUT_API_KEY", "secret"), ("INPUT_API_URL", "https://cm.example")]
        (fun _ => { status := 204, text := "" }) (fun _ => some Json.null) =
      run [("INPUT_API_KEY", "secret"), ("INPUT_API_URL", "https://cm.example")]
        (fun _ => { status := 204, text := "" }) (fun _ => none) ∧
    (run [("INPUT_API_KEY", "secret"), ("INPUT_API_URL", "https://cm.example")]
        (fun _ => { status := 204, text := "" }) (fun _ => none)).stdout =
      [summaryLine (readConfig [("INPUT_API_KEY", "secret"), ("INPUT_API_URL", "https://cm.example")]).baseline "low" 0 0,
       pairsLine ⟨0, 0, 0⟩] ∧
    (run [("INPUT_API_KEY", "secret"), ("INPUT_API_URL", "https://cm.example")]
        (fun _ => { status := 204, text := "" }) (fun _ => none)).exitCode =
      (if (readConfig [("INPUT_API_KEY", "secret"), ("INPUT_API_URL", "https://cm.example")]).failOn = "low"
       then 1 else 0) :=
  ⟨(c9_empty_body [("INPUT_API_KEY", "secret"), ("INPUT_API_URL", "https://cm.example")]
      (fun _ => { status := 204, text := "" }) (fun _ => none)
      (by decide) (by decide) rfl rfl).1 (fun _ => some Json.null),
   (c9_empty_body [("INPUT_API_KEY", "secret"), ("INPUT_API_URL", "https://cm.example")]
      (fun _ => { status := 204, text := "" }) (fun _ => none)
      (by decide) (by decide) rfl rfl).2.2.1,
   (c9_empty_body [("INPUT_API_KEY", "secret"), ("INPUT_API_URL", "https://cm.example")]
      (fun _ => { status := 204, text := "" }) (fun _ => none)
      (by decide) (by decide) rfl rfl).2.2.2⟩

/-- Claim C10: a pair whose issues field is absent or not an array
contributes zero issues, produces no detail block and no annotation lines,
and is still counted exactly once in the per-risk-level pair counts. -/
theorem c10_non_array_issues (pairName : String) (data : Json) (annotate : Bool)
    (h : isArrayOpt (jsGet data "issues") = false) :
    issueCount data = 0 ∧ issuesArr data = [] ∧ pairDetail annotate pairName data = [] ∧
    ∀ c : Counts, countsTotal (bumpCounts c (normalizeRisk (jsGet data "risk"))) = countsTotal c + 1 := by
  have harr : issuesArr data = [] := by
    rcases hj : jsGet data "issues" with _ | v
    · simp [issuesArr, hj]
    · cases v <;> simp_all [issuesArr, isArrayOpt]
  refine ⟨by simp [issueCount, h], harr, by simp [pairDetail, pairLines, harr], ?_⟩
  intro c
  rcases normalizeRisk_cases (jsGet data "risk") with hr | hr | hr <;>
    simp [hr, bumpCounts, countsTotal] <;> omega

/-- Witness for C10: a pair whose issues field is the string "oops". -/
theorem c10_witness :
    issueCount (Json.obj [("risk", Json.str "medium"), ("issues", Json.str "oops")]) = 0 ∧
    issuesArr (Json.obj [("risk", Json.str "medium"), ("issues", Json.str "oops")]) = [] ∧
    pairDetail true "staging vs production"
      (Json.obj [("risk", Json.str "medium"), ("issues", Json.str "oops")]) = [] ∧
    countsTotal (bumpCounts ⟨1, 2, 3⟩
      (normalizeRisk (jsGet (Json.obj [("risk", Json.str "medium"), ("issues", Json.str "oops")]) "risk"))) =
      countsTotal ⟨1, 2, 3⟩ + 1 :=
  have h := c10_non_array_issues "staging vs production"
    (Json.obj [("risk", Json.str "medium"), ("issues", Json.str "oops")]) true rfl
  ⟨h.1, h.2.1, h.2.2.1, h.2.2.2 ⟨1, 2, 3⟩⟩
